import Mathlib

/-!
Shallow embedding of the travel domain of the `space-drivers` repository
(`internal/travel/travel.go`, `internal/travel/repository.go`,
`internal/travel/point.go`), together with theorems settling the claims
about its update-validation engine, its service orchestration, and the
textual decoding of geographic points.

Modelling conventions:
* Go `int64` values (ids, user ids) are modelled as `Int`; none of the
  verified logic performs arithmetic that can overflow an `int64`.
* Go `float64` coordinates are only ever compared with `!=` by the
  validation engine, never computed with.  They are modelled as `Int`:
  on every non-NaN float Go equality coincides with mathematical
  equality, and a NaN coordinate cannot enter the system because the
  JSON binding layer has no NaN literal.
* Fallible Go functions returning `(T, error)` become `Except`/`Option`
  valued Lean functions.
* The SQL repository is modelled as an in-memory table (`DB`) with
  explicit fault flags standing for the "persistence layer reports a
  failure" cases (prepare/exec/scan errors); `context.Context` carrying
  the JWT claims of the logged-in user becomes an `Option Claims`
  parameter (`none` models a failed `ctx.Value("user_on_call")` type
  assertion).
-/

namespace SpaceDrivers

/-- `type Status string` from `travel.go`. -/
abbrev Status := String

/-- `StatusPending` from `travel.go`. -/
def StatusPending : Status := "pending"

/-- `StatusInProcess` from `travel.go`. -/
def StatusInProcess : Status := "in_process"

/-- `StatusReady` from `travel.go`. -/
def StatusReady : Status := "ready"

/-- `var travelFlow = []Status{StatusPending, StatusInProcess, StatusReady}`. -/
def travelFlow : List Status := [StatusPending, StatusInProcess, StatusReady]

/-- `user.RoleAdmin` from `internal/user/user.go`. -/
def RoleAdmin : String := "admin"

/-- `user.RoleDriver` from `internal/user/user.go`. -/
def RoleDriver : String := "driver"

/-- `code_error.Error` from `internal/platform/code_error/code_error.go`:
an error value carrying a machine readable code and a human readable detail. -/
structure CodeError where
  code : String
  detail : String
deriving DecidableEq, Repr

/-- `travel.Point` (`point.go`): a latitude/longitude pair (see the header
comment for why the float64 coordinates are carried as `Int`). -/
structure Point where
  Lat : Int
  Lng : Int
deriving DecidableEq, Repr

/-- `travel.Travel` from `travel.go`. -/
structure Travel where
  ID : Int
  Status : Status
  From : Point
  To : Point
  UserID : Int
deriving DecidableEq, Repr

/-- `jwt.Claims` from `internal/platform/jwt`: the decoded token of the
logged-in user. -/
structure Claims where
  Iat : Int
  Expiration : Int
  UserID : Int
  Role : String
deriving DecidableEq, Repr

/-- `ErrStorageSave` from `travel.go`. -/
def ErrStorageSave : CodeError :=
  ⟨"storage_failure", "an error ocurred trying to save travel"⟩

/-- `ErrStorageUpdate` from `travel.go`. -/
def ErrStorageUpdate : CodeError :=
  ⟨"storage_failure", "an error ocurred trying to update travel"⟩

/-- `ErrStorageGet` from `travel.go`. -/
def ErrStorageGet : CodeError :=
  ⟨"storage_failure", "an error ocurred trying to get travel"⟩

/-- `ErrNotFoundTravel` from `travel.go`. -/
def ErrNotFoundTravel : CodeError :=
  ⟨"not_found_travel", "not founded the travel to get"⟩

/-- `ErrInvalidStatusToEditLocation` from `travel.go`. -/
def ErrInvalidStatusToEditLocation : CodeError :=
  ⟨"invalid_location_edit_status", "travel status does not allow location change"⟩

/-- `ErrInvalidStatusToEdit` from `travel.go`. -/
def ErrInvalidStatusToEdit : CodeError :=
  ⟨"invalid_status", "invalid received status"⟩

/-- `ErrInvalidUser` from `travel.go`. -/
def ErrInvalidUser : CodeError :=
  ⟨"invalid_user", "invalid user while performing update"⟩

/-- `ErrInvalidUserClaims` from `travel.go`. -/
def ErrInvalidUserClaims : CodeError :=
  ⟨"invalid_user_access", "cannot identify user logged in"⟩

/-- `ErrInvalidUserAccess` from `travel.go`. -/
def ErrInvalidUserAccess : CodeError :=
  ⟨"invalid_user_access",
   "the user logged in cannot perform this action, he is not the owner of the travel or it is not an admin"⟩

/-- The loop body of `findStatusInFlow` (`travel.go`): scan the flow list
carrying the running index, returning the index of the first match. -/
def findStatusInFlowAux : List Status → Int → Status → Int
  | [], _, _ => -1
  | a :: rest, i, e => if a = e then i else findStatusInFlowAux rest (i + 1) e

/-- `findStatusInFlow` from `travel.go`: the index of a status inside
`travelFlow`, `-1` when the status is not part of the flow. -/
def findStatusInFlow (e : Status) : Int :=
  findStatusInFlowAux travelFlow 0 e

/-- The `changedLocation` condition computed at the top of
`validateTravelUpdate` (`travel.go`): some of the four coordinates differ
between the stored travel and the proposed one. -/
def changedLocation (travel changes : Travel) : Prop :=
  travel.From.Lat ≠ changes.From.Lat ∨ travel.From.Lng ≠ changes.From.Lng ∨
    travel.To.Lat ≠ changes.To.Lat ∨ travel.To.Lng ≠ changes.To.Lng

instance (travel changes : Travel) : Decidable (changedLocation travel changes) := by
  unfold changedLocation
  infer_instance

/-- `validateTravelUpdate` from `travel.go`: the business validation run on
every travel update.  `none` means the update is accepted, `some e` means it
is rejected with the error `e`.  The guard conditions and their order are a
direct transcription of the Go function. -/
def validateTravelUpdate (travel changes : Travel) (userLogged : Claims) : Option CodeError :=
  -- if the authenticated user is not the owner of the travel nor an admin
  -- then it cannot update the travel
  if travel.UserID ≠ userLogged.UserID ∧ userLogged.Role ≠ RoleAdmin then
    some ErrInvalidUserAccess
  -- the user id assigned to the travel is changed but the role from the
  -- user authenticated is not admin
  else if changes.UserID ≠ travel.UserID ∧ travel.UserID ≠ 0 ∧ userLogged.Role ≠ RoleAdmin then
    some ErrInvalidUserAccess
  -- no change in location if status on travel is not pending
  else if changedLocation travel changes ∧ travel.Status ≠ StatusPending then
    some ErrInvalidStatusToEditLocation
  -- status received is valid (findStatusInFlow returns -1 when invalid)
  else if findStatusInFlow changes.Status = -1 then
    some ErrInvalidStatusToEdit
  -- if travel currently status is not pending then the change needs a user id
  else if travel.Status ≠ StatusPending ∧ changes.UserID = 0 then
    some ErrInvalidUser
  -- if status received is not pending then the travel needs a user id
  else if changes.Status ≠ StatusPending ∧ changes.UserID = 0 then
    some ErrInvalidUser
  -- a change of user id on an already owned travel needs pending target status
  else if changes.UserID ≠ travel.UserID ∧ travel.UserID ≠ 0 ∧ changes.Status ≠ StatusPending then
    some ErrInvalidUser
  -- the new status can only be the same status or the next logical move
  else if findStatusInFlow changes.Status ≠ findStatusInFlow travel.Status ∧
      findStatusInFlow travel.Status + 1 ≠ findStatusInFlow changes.Status then
    some ErrInvalidStatusToEdit
  else
    none

/-- Repository level failures surfaced by `repository.go`: a missing row is
reported distinctly from any other infrastructure failure. -/
inductive RepoErr where
  | notFound : RepoErr
  | failure : RepoErr
deriving DecidableEq, Repr

/-- The in-memory model of the `travels` SQL table used by `SqlRepository`
(`repository.go`): the stored rows, the auto-increment counter, and fault
flags standing for the driver/SQL failures of each statement kind. -/
structure DB where
  rows : List Travel
  nextId : Int
  saveFails : Bool
  getFails : Bool
  updateFails : Bool
deriving DecidableEq, Repr

/-- The `SELECT ... WHERE id = ?` row lookup of `GetTravel`. -/
def findRow (rows : List Travel) (id : Int) : Option Travel :=
  rows.find? (fun r => r.ID == id)

/-- `SqlRepository.GetTravel` (`repository.go`): scan failure is a plain
failure, `sql.ErrNoRows` is reported as `ErrTravelNotFound`.  (The textual
decoding of the stored points is not re-modelled here: rows are carried as
`Travel` values directly.) -/
def repoGetTravel (db : DB) (id : Int) : Except RepoErr Travel :=
  if db.getFails then .error .failure
  else
    match findRow db.rows id with
    | none => .error .notFound
    | some t => .ok t

/-- `SqlRepository.SaveTravel` (`repository.go`): insert the row, assigning
the auto-increment id (`LastInsertId`).  Go stores a `UserID` of `0` as SQL
NULL and `GetTravel` reads NULL back as `0`, so the row is carried
unchanged. -/
def repoSaveTravel (db : DB) (t : Travel) : DB × Except RepoErr Travel :=
  if db.saveFails then (db, .error .failure)
  else
    let t' := { t with ID := db.nextId }
    ({ db with rows := db.rows ++ [t'], nextId := db.nextId + 1 }, .ok t')

/-- `SqlRepository.EditTravel` (`repository.go`): run
`UPDATE travels SET ... WHERE id = ?` and fail with
`ErrTravelNotFoundOnUpdate` when the number of affected rows differs
from 1. -/
def repoEditTravel (db : DB) (t : Travel) : DB × Option RepoErr :=
  if db.updateFails then (db, some .failure)
  else
    let affected := db.rows.countP (fun r => r.ID == t.ID)
    let db' := { db with rows := db.rows.map (fun r => if r.ID == t.ID then t else r) }
    if affected ≠ 1 then (db', some .notFound) else (db', none)

/-- `TravelStorage.Get` (`travel.go`): fetch by id, mapping the repository's
not-found error to `ErrNotFoundTravel` and any other failure to
`ErrStorageGet`. -/
def GetT (db : DB) (id : Int) : Except CodeError Travel :=
  match repoGetTravel db id with
  | .error .notFound => .error ErrNotFoundTravel
  | .error .failure => .error ErrStorageGet
  | .ok t => .ok t

/-- `TravelStorage.Save` (`travel.go`): force the status to pending, then
persist, mapping a repository failure to `ErrStorageSave`. -/
def SaveT (db : DB) (travel : Travel) : DB × Except CodeError Travel :=
  let toSave := { travel with Status := StatusPending }
  let res := repoSaveTravel db toSave
  match res.2 with
  | .error _ => (res.1, .error ErrStorageSave)
  | .ok t => (res.1, .ok t)

/-- `TravelStorage.Update` (`travel.go`): fetch the stored travel, read the
logged-in user's claims from the request context (`none` models a failed
`ctx.Value("user_on_call").(jwt.Claims)` assertion), validate, merge the
proposed fields onto the stored travel and persist, mapping a repository
failure to `ErrStorageUpdate`. -/
def UpdateT (db : DB) (userOnCall : Option Claims) (newTravel : Travel) :
    DB × Except CodeError Travel :=
  match GetT db newTravel.ID with
  | .error e => (db, .error e)
  | .ok travel =>
    match userOnCall with
    | none => (db, .error ErrInvalidUserClaims)
    | some userLogged =>
      match validateTravelUpdate travel newTravel userLogged with
      | some e => (db, .error e)
      | none =>
        let merged : Travel :=
          { travel with
            Status := newTravel.Status
            UserID := newTravel.UserID
            From := newTravel.From
            To := newTravel.To }
        let res := repoEditTravel db merged
        match res.2 with
        | some _ => (res.1, .error ErrStorageUpdate)
        | none => (res.1, .ok merged)

/-! ### `Point.FromString` (`point.go`)

`Point.FromString` splits its input on the separator `", "` with
`strings.Split` and feeds the first two pieces to `strconv.ParseFloat`.
The numeric values produced by `ParseFloat` are IEEE-754 floats and are not
modelled; what is modelled is the control flow of `FromString` — whether it
returns the decoded point, returns an error, or panics with an
index-out-of-range when the split has fewer than two pieces.  That only
requires `strings.Split` and the acceptance domain of `ParseFloat`, both
transcribed below from their documented Go behaviour. -/

/-- `strings.Split` specialised to the separator `", "` used by
`Point.FromString`: the list of (possibly empty) substrings between
non-overlapping occurrences of the separator, scanning left to right.
On the empty string Go returns `[""]`. -/
def splitCS : List Char → List (List Char)
  | [] => [[]]
  | ',' :: ' ' :: rest => [] :: splitCS rest
  | c :: rest =>
    match splitCS rest with
    | [] => [[c]]
    | p :: ps => (c :: p) :: ps

/-- Consume a maximal run of characters satisfying `p`, returning how many
were consumed and the remainder. -/
def takeRun (p : Char → Bool) : List Char → Nat × List Char
  | [] => (0, [])
  | c :: rest =>
    if p c then
      let r := takeRun p rest
      (r.1 + 1, r.2)
    else (0, c :: rest)

/-- ASCII decimal digit. -/
def isDigitC (c : Char) : Bool := '0' ≤ c && c ≤ '9'

/-- ASCII hexadecimal digit. -/
def isHexDigitC (c : Char) : Bool :=
  isDigitC c || ('a' ≤ c.toLower && c.toLower ≤ 'f')

/-- Drop one leading `+`/`-` sign, as `strconv` does. -/
def stripSign : List Char → List Char
  | '+' :: rest => rest
  | '-' :: rest => rest
  | s => s

/-- The special values accepted by `strconv.ParseFloat` after an optional
sign: `inf`, `infinity` and `nan`, case-insensitively. -/
def isSpecialFloat (s : List Char) : Bool :=
  let l := s.map Char.toLower
  l == "inf".data || l == "infinity".data || l == "nan".data

/-- The exponent of a float literal as read by `strconv`: an optional sign
followed by at least one decimal digit, ending the input. -/
def expTailOK (s : List Char) : Bool :=
  let r := takeRun isDigitC (stripSign s)
  r.1 ≥ 1 && r.2 == []

/-- Decimal mantissa with optional fraction and optional `e`/`E` exponent
(underscores already removed). -/
def decSyntaxOK (s : List Char) : Bool :=
  let m := takeRun isDigitC s
  let f : Nat × List Char :=
    match m.2 with
    | '.' :: r => takeRun isDigitC r
    | _ => (0, m.2)
  if m.1 + f.1 == 0 then false
  else
    match f.2 with
    | [] => true
    | e :: r3 => (e == 'e' || e == 'E') && expTailOK r3

/-- Hexadecimal mantissa (after the `0x` prefix) with optional fraction and
the mandatory `p`/`P` binary exponent required by Go. -/
def hexSyntaxOK (s : List Char) : Bool :=
  let m := takeRun isHexDigitC s
  let f : Nat × List Char :=
    match m.2 with
    | '.' :: r => takeRun isHexDigitC r
    | _ => (0, m.2)
  if m.1 + f.1 == 0 then false
  else
    match f.2 with
    | p :: r3 => (p == 'p' || p == 'P') && expTailOK r3
    | [] => false

/-- Number syntax after the optional sign: hexadecimal when the `0x`/`0X`
prefix is present, decimal otherwise. -/
def floatSyntaxOK (s : List Char) : Bool :=
  match s with
  | '0' :: x :: rest =>
    if x.toLower == 'x' then hexSyntaxOK rest else decSyntaxOK s
  | _ => decSyntaxOK s

/-- The loop of Go's `underscoreOK`: `saw` is `'0'` after a digit (or the
base prefix), `'_'` after an underscore, `'!'` after any other rune, and
`'^'` at the start.  An underscore is legal only right after a digit and
must be followed by one. -/
def underscoreLoop (hex : Bool) : List Char → Char → Bool
  | [], saw => saw != '_'
  | c :: rest, saw =>
    if c == '_' then
      if saw != '0' then false else underscoreLoop hex rest '_'
    else if isDigitC c || (hex && 'a' ≤ c.toLower && c.toLower ≤ 'f') then
      underscoreLoop hex rest '0'
    else if saw == '_' then false
    else underscoreLoop hex rest '!'

/-- `underscoreOK` from Go `strconv`: underscores may appear only between
digits or between the base prefix and a digit. -/
def underscoreOK (s : List Char) : Bool :=
  let s1 := stripSign s
  match s1 with
  | '0' :: x :: rest =>
    if x.toLower == 'x' then underscoreLoop true rest '0'
    else underscoreLoop false s1 '^'
  | _ => underscoreLoop false s1 '^'

/-- The acceptance domain of `strconv.ParseFloat` (64-bit): the input is a
special value or a well-formed decimal/hexadecimal float literal whose
underscores, if any, are legally placed. -/
def parseFloatAccepts (s : List Char) : Bool :=
  let t := stripSign s
  if isSpecialFloat t then true
  else underscoreOK s && floatSyntaxOK (t.filter (fun c => c != '_'))

/-- The observable outcome of `Point.FromString`: a decoded point (the two
numeric tokens are carried textually, their float values being outside this
model), a returned error, or a runtime panic. -/
inductive FromStringOutcome where
  | ok : String → String → FromStringOutcome
  | err : FromStringOutcome
  | panics : FromStringOutcome
deriving DecidableEq, Repr

/-- `Point.FromString` from `point.go`: split the input on `", "`, parse
piece 0, then parse piece 1.  The accesses `split[0]` and `split[1]` are
unguarded; `split[0]` always exists (`strings.Split` never returns an empty
slice), while accessing `split[1]` panics when the separator was absent and
the first parse succeeded. -/
def pointFromString (value : String) : FromStringOutcome :=
  match splitCS value.data with
  | [] => .panics
  | s0 :: rest =>
    if parseFloatAccepts s0 = false then .err
    else
      match rest with
      | [] => .panics
      | s1 :: _ =>
        if parseFloatAccepts s1 = false then .err
        else .ok (String.mk s0) (String.mk s1)

/-! ### Concrete example inputs used by the witness theorems -/

/-- A pending travel owned by user 5. -/
def wTravelPending : Travel := ⟨1, StatusPending, ⟨-100, 70⟩, ⟨2, 20⟩, 5⟩

/-- The same travel proposed as moved to `in_process`. -/
def wChangesInProcess : Travel := ⟨1, StatusInProcess, ⟨-100, 70⟩, ⟨2, 20⟩, 5⟩

/-- The owning driver of `wTravelPending`. -/
def wOwnerDriver : Claims := ⟨0, 0, 5, RoleDriver⟩

/-- An in-process travel owned by user 2 (spec scenario for claim C2). -/
def wTravelOwned2 : Travel := ⟨1, StatusInProcess, ⟨-100, 70⟩, ⟨2, 20⟩, 2⟩

/-- A driver with user id 1 who does not own `wTravelOwned2`. -/
def wIntruderDriver : Claims := ⟨0, 0, 1, RoleDriver⟩

/-- A healthy store holding only `wTravelOwned2`. -/
def wDbOwned2 : DB := ⟨[wTravelOwned2], 2, false, false, false⟩

/-- An admin caller. -/
def wAdmin : Claims := ⟨0, 0, 99, RoleAdmin⟩

/-- An in-process travel owned by user 2, locations (1,2)-(3,4). -/
def wTravelInProcess : Travel := ⟨3, StatusInProcess, ⟨1, 2⟩, ⟨3, 4⟩, 2⟩

/-- A proposal against `wTravelInProcess` that moves a coordinate and also
alters status and assigned user. -/
def wChangesMoved : Travel := ⟨3, "bogus", ⟨9, 2⟩, ⟨3, 4⟩, 7⟩

/-- A proposal against `wTravelInProcess` that reassigns it to user 7
while keeping the non-pending status. -/
def wChangesReassigned : Travel := ⟨3, StatusInProcess, ⟨1, 2⟩, ⟨3, 4⟩, 7⟩

/-- An in-process travel owned by user 5. -/
def wTravelOwned5 : Travel := ⟨1, StatusInProcess, ⟨-100, 70⟩, ⟨2, 20⟩, 5⟩

/-- A healthy store holding only `wTravelOwned5`. -/
def wDbOwned5 : DB := ⟨[wTravelOwned5], 2, false, false, false⟩

/-- An empty healthy store. -/
def wDbEmpty : DB := ⟨[], 1, false, false, false⟩

/-- A travel submitted for creation with a caller-supplied `ready` status. -/
def wTravelReadyInput : Travel := ⟨0, StatusReady, ⟨1, 2⟩, ⟨3, 4⟩, 9⟩

/-! ### Helper lemmas -/

/-- A status belonging to `travelFlow` has an index other than `-1`. -/
lemma findStatusInFlow_ne_neg_one_of_mem (s : Status) (hs : s ∈ travelFlow) :
    findStatusInFlow s ≠ -1 := by
  fin_cases hs <;> decide

/-- Mapping a function that fixes every element of a list leaves it
unchanged. -/
lemma map_eq_self_of_fixes {α : Type} (l : List α) (f : α → α)
    (h : ∀ a ∈ l, f a = a) : l.map f = l := by
  induction l with
  | nil => rfl
  | cons x xs ih =>
    simp only [List.map_cons]
    rw [h x (List.mem_cons_self x xs), ih (fun a ha => h a (List.mem_cons_of_mem x ha))]

/-! ### Claim theorems -/

/-- Claim C1: for every stored travel and proposed update that pass all the
gates preceding the status-transition gate of `validateTravelUpdate`, the
update is accepted exactly when the proposed status keeps the index of the
stored status or advances it by one in the flow pending, in_process, ready
(so a same-value status is never rejected by this gate), and every other
move is rejected with the invalid-status error. -/
theorem statusTransitionGate_sameOrNext (travel changes : Travel) (u : Claims)
    (h1 : ¬(travel.UserID ≠ u.UserID ∧ u.Role ≠ RoleAdmin))
    (h2 : ¬(changes.UserID ≠ travel.UserID ∧ travel.UserID ≠ 0 ∧ u.Role ≠ RoleAdmin))
    (h3 : ¬(changedLocation travel changes ∧ travel.Status ≠ StatusPending))
    (h4 : findStatusInFlow changes.Status ≠ -1)
    (h5 : ¬(travel.Status ≠ StatusPending ∧ changes.UserID = 0))
    (h6 : ¬(changes.Status ≠ StatusPending ∧ changes.UserID = 0))
    (h7 : ¬(changes.UserID ≠ travel.UserID ∧ travel.UserID ≠ 0 ∧ changes.Status ≠ StatusPending)) :
    (validateTravelUpdate travel changes u = none ↔
      (findStatusInFlow changes.Status = findStatusInFlow travel.Status ∨
        findStatusInFlow changes.Status = findStatusInFlow travel.Status + 1)) ∧
    (validateTravelUpdate travel changes u = none ∨
      validateTravelUpdate travel changes u = some ErrInvalidStatusToEdit) := by
  unfold validateTravelUpdate
  rw [if_neg h1, if_neg h2, if_neg h3, if_neg h4, if_neg h5, if_neg h6, if_neg h7]
  by_cases h : findStatusInFlow changes.Status ≠ findStatusInFlow travel.Status ∧
      findStatusInFlow travel.Status + 1 ≠ findStatusInFlow changes.Status
  · rw [if_pos h]
    refine ⟨Iff.intro (fun hc => Option.noConfusion hc) (fun hc => ?_), Or.inr rfl⟩
    rcases hc with hc | hc
    · exact absurd hc h.1
    · exact absurd hc.symm h.2
  · rw [if_neg h]
    push_neg at h
    refine ⟨Iff.intro (fun _ => ?_) (fun _ => rfl), Or.inl rfl⟩
    by_cases hne : findStatusInFlow changes.Status = findStatusInFlow travel.Status
    · exact Or.inl hne
    · exact Or.inr (h hne).symm

/-- Witness for C1: the owner moves a pending travel to in_process; all
earlier gates pass, and the transition gate accepts exactly the
same-or-next-index moves. -/
theorem statusTransitionGate_sameOrNext_witness :
    (validateTravelUpdate wTravelPending wChangesInProcess wOwnerDriver = none ↔
      (findStatusInFlow wChangesInProcess.Status = findStatusInFlow wTravelPending.Status ∨
        findStatusInFlow wChangesInProcess.Status = findStatusInFlow wTravelPending.Status + 1)) ∧
    (validateTravelUpdate wTravelPending wChangesInProcess wOwnerDriver = none ∨
      validateTravelUpdate wTravelPending wChangesInProcess wOwnerDriver =
        some ErrInvalidStatusToEdit) :=
  statusTransitionGate_sameOrNext wTravelPending wChangesInProcess wOwnerDriver
    (by decide) (by decide) (by decide) (by decide) (by decide) (by decide) (by decide)

/-- Claim C2: when the stored travel's assigned user differs from the
caller's user id and the caller is not an admin, `Update` rejects every
proposal (a no-op proposal included) with the unauthorized-access error. -/
theorem update_nonOwner_nonAdmin_rejected (db : DB) (u : Claims) (travel changes : Travel)
    (hg : db.getFails = false)
    (hfind : findRow db.rows changes.ID = some travel)
    (hown : travel.UserID ≠ u.UserID)
    (hrole : u.Role ≠ RoleAdmin) :
    (UpdateT db (some u) changes).2 = .error ErrInvalidUserAccess := by
  have hget : GetT db changes.ID = .ok travel := by
    simp [GetT, repoGetTravel, hg, hfind]
  have hval : validateTravelUpdate travel changes u = some ErrInvalidUserAccess := by
    unfold validateTravelUpdate
    rw [if_pos ⟨hown, hrole⟩]
  simp [UpdateT, hget, hval]

/-- Witness for C2: the spec scenario — travel owned by user 2, driver
caller with user id 1, submitting a no-op proposal. -/
theorem update_nonOwner_nonAdmin_rejected_witness :
    (UpdateT wDbOwned2 (some wIntruderDriver) wTravelOwned2).2 =
      .error ErrInvalidUserAccess :=
  update_nonOwner_nonAdmin_rejected wDbOwned2 wIntruderDriver wTravelOwned2 wTravelOwned2
    (by decide) (by decide) (by decide) (by decide)

/-- Claim C3 (failing input): the code rejects a driver's self-assignment
of an unassigned pending travel.  The stored travel is unassigned
(`UserID = 0`), the caller is the driver with user id 5, and the proposal
assigns the travel to the caller themself — yet the first authorization
gate of `validateTravelUpdate` compares the stored `UserID` (0) with the
caller's (5) and returns the unauthorized-access error, contrary to the
repository's README ("Travels can be modified by drivers only when they own
it or if it still lacks an owner (driver would assign itself to the
travel)"). -/
theorem driver_selfAssign_rejected :
    validateTravelUpdate ⟨1, StatusPending, ⟨-100, 70⟩, ⟨2, 20⟩, 0⟩
        ⟨1, StatusPending, ⟨-100, 70⟩, ⟨2, 20⟩, 5⟩ ⟨0, 0, 5, RoleDriver⟩ =
      some ErrInvalidUserAccess := by decide

/-- Claim C4: once the two authorization gates pass, a proposal that moves
any of the four coordinates of a travel whose stored status is not pending
is rejected with the invalid-location-edit error, whatever the proposed
status and assigned user are. -/
theorem update_locationChange_rejected (travel changes : Travel) (u : Claims)
    (h1 : ¬(travel.UserID ≠ u.UserID ∧ u.Role ≠ RoleAdmin))
    (h2 : ¬(changes.UserID ≠ travel.UserID ∧ travel.UserID ≠ 0 ∧ u.Role ≠ RoleAdmin))
    (hst : travel.Status ≠ StatusPending)
    (hloc : changedLocation travel changes) :
    validateTravelUpdate travel changes u = some ErrInvalidStatusToEditLocation := by
  unfold validateTravelUpdate
  rw [if_neg h1, if_neg h2, if_pos ⟨hloc, hst⟩]

/-- Witness for C4: an admin moves a coordinate of an in-process travel
while also proposing a bogus status and a different assigned user; the
rejection is still invalid-location-edit. -/
theorem update_locationChange_rejected_witness :
    validateTravelUpdate wTravelInProcess wChangesMoved wAdmin =
      some ErrInvalidStatusToEditLocation :=
  update_locationChange_rejected wTravelInProcess wChangesMoved wAdmin
    (by decide) (by decide) (by decide) (by decide)

/-- Claim C5: once the gates before the assignment rules pass, changing the
assigned user of an already-owned travel with a non-pending proposed status
is rejected with the invalid-user error, while an admin's reassignment to a
(nonzero) user with the proposed status pending is never rejected with
invalid-user. -/
theorem update_reassignment_rules (travel changes : Travel) (u : Claims)
    (h1 : ¬(travel.UserID ≠ u.UserID ∧ u.Role ≠ RoleAdmin))
    (h2 : ¬(changes.UserID ≠ travel.UserID ∧ travel.UserID ≠ 0 ∧ u.Role ≠ RoleAdmin))
    (h3 : ¬(changedLocation travel changes ∧ travel.Status ≠ StatusPending))
    (h4 : findStatusInFlow changes.Status ≠ -1) :
    ((changes.UserID ≠ travel.UserID ∧ travel.UserID ≠ 0 ∧ changes.Status ≠ StatusPending) →
      validateTravelUpdate travel changes u = some ErrInvalidUser) ∧
    ((u.Role = RoleAdmin ∧ changes.Status = StatusPending ∧ changes.UserID ≠ 0) →
      validateTravelUpdate travel changes u ≠ some ErrInvalidUser) := by
  constructor
  · intro ha
    unfold validateTravelUpdate
    rw [if_neg h1, if_neg h2, if_neg h3, if_neg h4]
    by_cases g5 : travel.Status ≠ StatusPending ∧ changes.UserID = 0
    · rw [if_pos g5]
    · rw [if_neg g5]
      by_cases g6 : changes.Status ≠ StatusPending ∧ changes.UserID = 0
      · rw [if_pos g6]
      · rw [if_neg g6, if_pos ha]
  · rintro ⟨_, hpend, hnz⟩
    unfold validateTravelUpdate
    rw [if_neg h1, if_neg h2, if_neg h3, if_neg h4]
    rw [if_neg (show ¬(travel.Status ≠ StatusPending ∧ changes.UserID = 0) from
      fun hc => hnz hc.2)]
    rw [if_neg (show ¬(changes.Status ≠ StatusPending ∧ changes.UserID = 0) from
      fun hc => hnz hc.2)]
    rw [if_neg (show ¬(changes.UserID ≠ travel.UserID ∧ travel.UserID ≠ 0 ∧
        changes.Status ≠ StatusPending) from fun hc => hc.2.2 hpend)]
    by_cases g8 : findStatusInFlow changes.Status ≠ findStatusInFlow travel.Status ∧
        findStatusInFlow travel.Status + 1 ≠ findStatusInFlow changes.Status
    · rw [if_pos g8]
      intro hc
      exact absurd (Option.some.inj hc) (by decide)
    · rw [if_neg g8]
      exact fun hc => nomatch hc

/-- Witness for C5: an admin proposes reassigning the in-process travel of
user 2 to user 7 while keeping the status in_process. -/
theorem update_reassignment_rules_witness :
    ((wChangesReassigned.UserID ≠ wTravelInProcess.UserID ∧ wTravelInProcess.UserID ≠ 0 ∧
        wChangesReassigned.Status ≠ StatusPending) →
      validateTravelUpdate wTravelInProcess wChangesReassigned wAdmin =
        some ErrInvalidUser) ∧
    ((wAdmin.Role = RoleAdmin ∧ wChangesReassigned.Status = StatusPending ∧
        wChangesReassigned.UserID ≠ 0) →
      validateTravelUpdate wTravelInProcess wChangesReassigned wAdmin ≠
        some ErrInvalidUser) :=
  update_reassignment_rules wTravelInProcess wChangesReassigned wAdmin
    (by decide) (by decide) (by decide) (by decide)

/-- Claim C6: submitting the exact stored state as the proposal — for a
stored travel whose status belongs to the lifecycle flow and which has an
assigned user whenever not pending, held exactly once in a healthy store,
by a caller who owns it or is an admin — is accepted, and both the store
and the returned travel are left exactly as stored. -/
theorem update_noop_idempotent (db : DB) (u : Claims) (travel : Travel)
    (hg : db.getFails = false)
    (hupd : db.updateFails = false)
    (hfind : findRow db.rows travel.ID = some travel)
    (hcount : db.rows.countP (fun r => r.ID == travel.ID) = 1)
    (huniq : ∀ r ∈ db.rows, r.ID = travel.ID → r = travel)
    (hauth : travel.UserID = u.UserID ∨ u.Role = RoleAdmin)
    (hstatus : travel.Status ∈ travelFlow)
    (hinv : travel.Status ≠ StatusPending → travel.UserID ≠ 0) :
    UpdateT db (some u) travel = (db, .ok travel) := by
  have hget : GetT db travel.ID = .ok travel := by
    simp [GetT, repoGetTravel, hg, hfind]
  have hval : validateTravelUpdate travel travel u = none := by
    unfold validateTravelUpdate
    rw [if_neg (show ¬(travel.UserID ≠ u.UserID ∧ u.Role ≠ RoleAdmin) from
      fun hc => hauth.elim hc.1 hc.2)]
    rw [if_neg (show ¬(travel.UserID ≠ travel.UserID ∧ travel.UserID ≠ 0 ∧
        u.Role ≠ RoleAdmin) from fun hc => hc.1 rfl)]
    rw [if_neg (show ¬(changedLocation travel travel ∧ travel.Status ≠ StatusPending) from
      fun hc => by rcases hc.1 with h | h | h | h <;> exact h rfl)]
    rw [if_neg (findStatusInFlow_ne_neg_one_of_mem travel.Status hstatus)]
    rw [if_neg (show ¬(travel.Status ≠ StatusPending ∧ travel.UserID = 0) from
      fun hc => hinv hc.1 hc.2)]
    rw [if_neg (show ¬(travel.Status ≠ StatusPending ∧ travel.UserID = 0) from
      fun hc => hinv hc.1 hc.2)]
    rw [if_neg (show ¬(travel.UserID ≠ travel.UserID ∧ travel.UserID ≠ 0 ∧
        travel.Status ≠ StatusPending) from fun hc => hc.1 rfl)]
    rw [if_neg (show ¬(findStatusInFlow travel.Status ≠ findStatusInFlow travel.Status ∧
        findStatusInFlow travel.Status + 1 ≠ findStatusInFlow travel.Status) from
      fun hc => hc.1 rfl)]
  have hmap : db.rows.map (fun r => if r.ID == travel.ID then travel else r) = db.rows := by
    refine map_eq_self_of_fixes db.rows _ (fun r hr => ?_)
    by_cases hid : r.ID = travel.ID
    · simp [hid, huniq r hr hid]
    · simp [hid]
  have hedit : repoEditTravel db travel = (db, none) := by
    unfold repoEditTravel
    rw [if_neg (by simp [hupd])]
    simp only [hcount, hmap]
    norm_num
  simp [UpdateT, hget, hval, hedit]

/-- Witness for C6: the owning driver submits the stored in-process travel
unchanged; the store and the returned travel are untouched. -/
theorem update_noop_idempotent_witness :
    UpdateT wDbOwned5 (some wOwnerDriver) wTravelOwned5 = (wDbOwned5, .ok wTravelOwned5) :=
  update_noop_idempotent wDbOwned5 wOwnerDriver wTravelOwned5
    (by decide) (by decide) (by decide) (by decide) (by decide) (by decide)
    (by decide) (by decide)

/-- Claim C7: `Save` persists and returns a travel whose status is pending
whatever status the caller supplied, and fails with the storage-save error
exactly when the persistence layer reports a failure. -/
theorem save_forces_pending (db : DB) (travel : Travel) :
    ((SaveT db travel).2 = .error ErrStorageSave ↔ db.saveFails = true) ∧
    (∀ t, (SaveT db travel).2 = .ok t →
      t.Status = StatusPending ∧ t ∈ (SaveT db travel).1.rows) := by
  by_cases hs : db.saveFails
  · constructor
    · simp [SaveT, repoSaveTravel, hs]
    · intro t ht
      simp [SaveT, repoSaveTravel, hs] at ht
  · constructor
    · simp [SaveT, repoSaveTravel, hs]
    · intro t ht
      simp only [SaveT, repoSaveTravel, hs, Bool.false_eq_true, if_false, ite_false] at ht ⊢
      cases ht
      exact ⟨rfl, by simp⟩

/-- Witness for C7: creating a travel submitted with status `ready` in an
empty healthy store. -/
theorem save_forces_pending_witness :
    ((SaveT wDbEmpty wTravelReadyInput).2 = .error ErrStorageSave ↔
      wDbEmpty.saveFails = true) ∧
    (∀ t, (SaveT wDbEmpty wTravelReadyInput).2 = .ok t →
      t.Status = StatusPending ∧ t ∈ (SaveT wDbEmpty wTravelReadyInput).1.rows) :=
  save_forces_pending wDbEmpty wTravelReadyInput

/-- Claim C8: when the caller's identity cannot be resolved from the
request context, `Update` of an existing travel fails with the
cannot-identify-user error, which is a different error value from the
engine's unauthorized-access rejection. -/
theorem update_noIdentity_rejected (db : DB) (newTravel travel : Travel)
    (hg : db.getFails = false)
    (hfind : findRow db.rows newTravel.ID = some travel) :
    (UpdateT db none newTravel).2 = .error ErrInvalidUserClaims ∧
      ErrInvalidUserClaims ≠ ErrInvalidUserAccess := by
  have hget : GetT db newTravel.ID = .ok travel := by
    simp [GetT, repoGetTravel, hg, hfind]
  exact ⟨by simp [UpdateT, hget], by decide⟩

/-- Witness for C8: an identity-less update of the stored in-process
travel. -/
theorem update_noIdentity_rejected_witness :
    (UpdateT wDbOwned5 none wTravelOwned5).2 = .error ErrInvalidUserClaims ∧
      ErrInvalidUserClaims ≠ ErrInvalidUserAccess :=
  update_noIdentity_rejected wDbOwned5 wTravelOwned5 wTravelOwned5 (by decide) (by decide)

/-- Claim C10 counterexample: on the empty string — an input not containing
the separator `", "` — `Point.FromString` does not panic: `strings.Split`
yields `[""]`, `strconv.ParseFloat` fails on the empty first piece, and the
function returns that error before ever indexing `split[1]`. -/
theorem fromString_empty_returns_error :
    pointFromString "" = FromStringOutcome.err ∧
      FromStringOutcome.err ≠ FromStringOutcome.panics := by decide

/-- Claim C10 (amended): `Point.FromString` indexes the split of its input
on `", "` without checking the number of pieces, so an input without the
separator whose whole text parses as a float — such as `"1.5"` — panics
with an index-out-of-range instead of returning an error. -/
theorem fromString_no_separator_panics :
    pointFromString "1.5" = FromStringOutcome.panics := by decide

end SpaceDrivers
